import Mathlib

/-!
Shallow embedding of `src/generate_error_logs.py`: a synthetic error-log
generator that builds error records in five encodings and sends each with
severity ERROR.  Randomness (`random.choice`, `random.randint`) is modelled
by explicit natural-number seeds threaded through a `RandSrc` record; the
ambient clock (`datetime.utcnow().isoformat()`) is an input string;
the transport (`self.logger.log_text` / `log_struct`) is modelled by
returning the list of emitted (payload, severity) pairs, and a per-call
transport outcome decides whether the send raises.
-/

/-- Python truthiness of an optional string (`if self.prefix:`):
`None` and the empty string are falsy. -/
def truthy : Option String → Bool
  | none => false
  | some s => !(s == "")

/-- Interpolation of an optional string into an f-string (`f"{self.prefix}..."`):
`None` prints as "None"; in the source this is only reached when truthy. -/
def pyFStr : Option String → String
  | none => "None"
  | some s => s

/-- Model of `random.choice(xs)` for a non-empty literal list: an arbitrary
seed picks an element; the default is never used on the source's lists. -/
def random_choice {α : Type} [Inhabited α] (xs : List α) (seed : Nat) : α :=
  xs.getD (seed % xs.length) default

/-- Model of `random.randint(lo, hi)` (inclusive on both ends). -/
def random_randint (lo hi : Int) (seed : Nat) : Int :=
  lo + ((seed % (hi - lo + 1).toNat : Nat) : Int)

theorem random_choice_mem {α : Type} [Inhabited α] (xs : List α) (seed : Nat)
    (h : xs ≠ []) : random_choice xs seed ∈ xs := by
  unfold random_choice
  have hpos : 0 < xs.length := List.length_pos.mpr h
  have hlt : seed % xs.length < xs.length := Nat.mod_lt _ hpos
  rw [List.getD_eq_getElem?_getD, List.getElem?_eq_getElem hlt]
  simp [List.getElem_mem]

theorem random_randint_bounds (lo hi : Int) (seed : Nat) (h : lo ≤ hi) :
    lo ≤ random_randint lo hi seed ∧ random_randint lo hi seed ≤ hi := by
  unfold random_randint
  have hpos : 0 < (hi - lo + 1).toNat := by omega
  have hlt : seed % (hi - lo + 1).toNat < (hi - lo + 1).toNat := Nat.mod_lt _ hpos
  omega

/-! ### Python exceptions raised by the five induced faults -/

/-- The Python exception values that `generate_python_exception` can raise. -/
inductive PyExc where
  | zeroDivisionError (msg : String)
  | indexError (msg : String)
  | keyError (msg : String)
  | valueError (msg : String)
  | typeError (msg : String)
deriving DecidableEq

/-- Python `str(e)` on a caught exception. -/
def pyStr : PyExc → String
  | .zeroDivisionError m => m
  | .indexError m => m
  | .keyError m => m
  | .valueError m => m
  | .typeError m => m

/-- The exception class name, used in the last traceback line. -/
def pyExcName : PyExc → String
  | .zeroDivisionError _ => "ZeroDivisionError"
  | .indexError _ => "IndexError"
  | .keyError _ => "KeyError"
  | .valueError _ => "ValueError"
  | .typeError _ => "TypeError"

/-- Python integer division `a / b` (the numeric result is unused by the
source; only the zero-divisor failure matters). -/
def pyDiv (a b : Int) : Except PyExc Int :=
  if b = 0 then .error (.zeroDivisionError "division by zero") else .ok (a / b)

/-- Python list indexing `lst[i]`. -/
def pyListGet (l : List Int) (i : Nat) : Except PyExc Int :=
  match l.get? i with
  | some v => .ok v
  | none => .error (.indexError "list index out of range")

/-- Python dict lookup `d[k]`. -/
def pyDictGet (d : List (String × Int)) (k : String) : Except PyExc Int :=
  match d.lookup k with
  | some v => .ok v
  | none => .error (.keyError ("'" ++ k ++ "'"))

/-- The numeric value of a decimal digit character. -/
def digitVal (c : Char) : Option Nat :=
  if '0' ≤ c ∧ c ≤ '9' then some (c.toNat - '0'.toNat) else none

/-- Accumulate a decimal numeral; fails on the first non-digit. -/
def parseDigits : List Char → Nat → Option Nat
  | [], acc => some acc
  | c :: rest, acc =>
    match digitVal c with
    | some d => parseDigits rest (acc * 10 + d)
    | none => none

/-- Python `int(s)` on a string: an optional sign followed by at least one
decimal digit, else ValueError. -/
def pyInt (s : String) : Except PyExc Int :=
  let parsed : Option Int :=
    match s.data with
    | '-' :: rest => if rest = [] then none else (parseDigits rest 0).map (fun n => -(n : Int))
    | '+' :: rest => if rest = [] then none else (parseDigits rest 0).map (fun n => (n : Int))
    | cs => if cs = [] then none else (parseDigits cs 0).map (fun n => (n : Int))
  match parsed with
  | some n => .ok n
  | none => .error (.valueError ("invalid literal for int() with base 10: '" ++ s ++ "'"))

/-- A Python value: only the string/int distinction matters for the `+` fault. -/
inductive PyVal where
  | int (n : Int)
  | str (s : String)
deriving DecidableEq

/-- Python `+` on dynamic values: `"string" + 123` raises TypeError. -/
def pyAdd : PyVal → PyVal → Except PyExc PyVal
  | .int a, .int b => .ok (.int (a + b))
  | .str a, .str b => .ok (.str (a ++ b))
  | .str _, .int _ => .error (.typeError "can only concatenate str (not \"int\") to str")
  | .int _, .str _ => .error (.typeError "unsupported operand type(s) for +: 'int' and 'str'")

/-- Model of `traceback.format_exc()` at the catch site: a traceback header,
a representative frame of the synthesizing routine, and the exception line.
The exact frame text is runtime state; its shape (multi-line, ends with
`Name: message`) is what the source relies on. -/
def format_exc (e : PyExc) : String :=
  "Traceback (most recent call last):\n" ++
  "  File \"generate_error_logs.py\", line 70, in generate_python_exception\n" ++
  pyExcName e ++ ": " ++ pyStr e ++ "\n"

/-- `ErrorGenerator.generate_python_exception`: uniformly choose one of the
five fault kinds, trigger it, catch the exception and return
`(str(e), traceback.format_exc())`.  Returns `none` exactly when no
exception was raised (the Python function would fall through to `None`). -/
def generate_python_exception (seed : Nat) : Option (String × String) :=
  let error_type := random_choice ["division", "index", "key", "value", "type"] seed
  let attempt : Except PyExc Unit :=
    if error_type = "division" then
      match pyDiv 10 0 with
      | .ok _ => .ok ()
      | .error e => .error e
    else if error_type = "index" then
      match pyListGet [1, 2, 3] 10 with
      | .ok _ => .ok ()
      | .error e => .error e
    else if error_type = "key" then
      match pyDictGet [("a", 1)] "nonexistent_key" with
      | .ok _ => .ok ()
      | .error e => .error e
    else if error_type = "value" then
      match pyInt "not_a_number" with
      | .ok _ => .ok ()
      | .error e => .error e
    else
      match pyAdd (PyVal.str "string") (PyVal.int 123) with
      | .ok _ => .ok ()
      | .error e => .error e
  match attempt with
  | .error e => some (pyStr e, format_exc e)
  | .ok _ => none

/-- The `(error_msg, stack_trace)` pair as unpacked by each caller
(`error_msg, stack_trace = self.generate_python_exception()`). -/
def synthPair (seed : Nat) : String × String :=
  (generate_python_exception seed).getD ("", "")

/-! ### JSON payloads -/

/-- A JSON-ish value, mirroring the Python dict literals the source builds. -/
inductive JVal where
  | str (s : String)
  | num (n : Int)
  | bool (b : Bool)
  | obj (fields : List (String × JVal))

/-- Association-list lookup among an object's fields (first match wins). -/
def lookupField : List (String × JVal) → String → Option JVal
  | [], _ => none
  | (k, v) :: rest, key => if k = key then some v else lookupField rest key

/-- Field access on a JSON value. -/
def JVal.getKey : JVal → String → Option JVal
  | .obj fs, key => lookupField fs key
  | _, _ => none

/-- Access along a path of keys. -/
def JVal.getPath : JVal → List String → Option JVal
  | j, [] => some j
  | j, k :: ks =>
    match j.getKey k with
    | some v => v.getPath ks
    | none => none

/-- Whether a key occurs anywhere in a JSON value, at any nesting depth. -/
def JVal.hasKeyDeep : JVal → String → Bool
  | .obj [], _ => false
  | .obj ((k, v) :: rest), key =>
    k == key || v.hasKeyDeep key || (JVal.obj rest).hasKeyDeep key
  | _, _ => false

/-- A payload handed to the transport: `log_text` sends plain text,
`log_struct` a structured value. -/
inductive Payload where
  | text (s : String)
  | json (j : JVal)

/-- One transport emission: `self.logger.log_text/log_struct(payload, severity=...)`. -/
structure Send where
  payload : Payload
  severity : String

/-- All the random draws and ambient inputs one dispatch call can consume,
one seed per call site of `random.choice` / `random.randint`, plus the
current wall-clock ISO string. -/
structure RandSrc where
  fault : Nat
  jsonUser : Nat
  jsonLine : Nat
  msgChoice : Nat
  msgMethod : Nat
  msgUrl : Nat
  msgStatus : Nat
  msgUser : Nat
  repScenario : Nat
  repMajor : Nat
  repMinor : Nat
  repPatch : Nat
  repMethod : Nat
  repIp1 : Nat
  repIp2 : Nat
  repUser : Nat
  repLine : Nat
  custEnv : Nat
  custReq : Nat
  custSess : Nat
  custFlagNewUi : Nat
  custFlagBeta : Nat
  custRt : Nat
  custMem : Nat
  methodPick : Nat
  nowIso : String

/-- A fixed all-zero seed record, for concrete evaluations. -/
def r0 : RandSrc :=
  ⟨0, 0, 0, 0, 0, 0, 0, 0, 0, 0, 0, 0, 0, 0, 0, 0, 0, 0, 0, 0, 0, 0, 0, 0, 0, ""⟩

/-! ### The five encoders -/

/-- The text sent by `log_stack_trace_as_text_payload`: the synthesized
stack trace, with the prefix joined by a newline when set. -/
def text_payload_string (pref : Option String) (r : RandSrc) : String :=
  let stack_trace := (synthPair r.fault).2
  if truthy pref then pyFStr pref ++ "\n" ++ stack_trace else stack_trace

/-- `log_stack_trace_as_text_payload`: one `log_text(stack_trace, severity='ERROR')`. -/
def log_stack_trace_as_text_payload (pref : Option String) (r : RandSrc) : List Send :=
  [⟨.text (text_payload_string pref r), "ERROR"⟩]

/-- The structured payload built by `log_stack_trace_as_json_payload`. -/
def json_payload_record (pref : Option String) (r : RandSrc) : JVal :=
  let error_msg := (synthPair r.fault).1
  let stack_trace0 := (synthPair r.fault).2
  let message0 := "Error occurred: " ++ error_msg
  let message := if truthy pref then pyFStr pref ++ " " ++ message0 else message0
  let stack_trace := if truthy pref then pyFStr pref ++ "\n" ++ stack_trace0 else stack_trace0
  .obj [
    ("message", .str message),
    ("stack_trace", .str stack_trace),
    ("serviceContext", .obj [
      ("service", .str "error-reporting-demo"),
      ("version", .str "1.0.0")]),
    ("context", .obj [
      ("user", .str ("user_" ++ toString (random_randint 1000 9999 r.jsonUser))),
      ("reportLocation", .obj [
        ("filePath", .str "generate_error_logs.py"),
        ("lineNumber", .num (random_randint 30 50 r.jsonLine)),
        ("functionName", .str "generate_python_exception")])])]

/-- `log_stack_trace_as_json_payload`: one `log_struct(json_payload, severity='ERROR')`. -/
def log_stack_trace_as_json_payload (pref : Option String) (r : RandSrc) : List Send :=
  [⟨.json (json_payload_record pref r), "ERROR"⟩]

/-- The six canned messages of `log_text_message_error`. -/
def error_messages : List String :=
  ["Database connection timeout after 30 seconds",
   "Failed to authenticate user: Invalid credentials",
   "Payment processing failed: Card declined",
   "API rate limit exceeded for endpoint /api/v1/users",
   "File upload failed: Maximum file size exceeded",
   "Cache miss for key: user_session_12345"]

/-- The structured payload built by `log_text_message_error` (@type-marked
ReportedErrorEvent, message only, no stack trace anywhere). -/
def text_message_payload (pref : Option String) (r : RandSrc) : JVal :=
  let error_msg0 := random_choice error_messages r.msgChoice
  let error_msg := if truthy pref then pyFStr pref ++ " " ++ error_msg0 else error_msg0
  .obj [
    ("@type", .str "type.googleapis.com/google.devtools.clouderrorreporting.v1beta1.ReportedErrorEvent"),
    ("message", .str error_msg),
    ("serviceContext", .obj [
      ("service", .str "error-reporting-demo"),
      ("version", .str "1.0.0")]),
    ("context", .obj [
      ("httpRequest", .obj [
        ("method", .str (random_choice ["GET", "POST", "PUT", "DELETE"] r.msgMethod)),
        ("url", .str ("https://example.com/api/v1/" ++
          random_choice ["users", "orders", "products"] r.msgUrl)),
        ("responseStatusCode", .num (random_choice
          ([400, 401, 403, 404, 500, 502, 503] : List Int) r.msgStatus))]),
      ("user", .str ("user_" ++ toString (random_randint 1000 9999 r.msgUser)))])]

/-- `log_text_message_error`: one `log_struct(json_payload, severity='ERROR')`. -/
def log_text_message_error (pref : Option String) (r : RandSrc) : List Send :=
  [⟨.json (text_message_payload pref r), "ERROR"⟩]

/-- One entry of `error_scenarios` in `log_reported_error_event_format`. -/
structure Scenario where
  message : String
  service : String
  http_path : String
deriving Inhabited, DecidableEq

/-- The three canned scenarios of `log_reported_error_event_format`. -/
def error_scenarios : List Scenario :=
  [⟨"NullPointerException: Cannot read property \"id\" of null\n" ++
    "at UserService.getUser (UserService.java:45)\n" ++
    "at UserController.handleRequest (UserController.java:123)\n" ++
    "at RequestHandler.process (RequestHandler.java:67)",
    "user-service", "/api/users/12345"⟩,
   ⟨"SQLException: Connection pool exhausted\n" ++
    "at DatabasePool.getConnection (DatabasePool.java:89)\n" ++
    "at OrderRepository.findById (OrderRepository.java:156)\n" ++
    "at OrderService.processOrder (OrderService.java:234)",
    "order-service", "/api/orders/process"⟩,
   ⟨"TimeoutException: Request timed out after 5000ms\n" ++
    "at HttpClient.sendRequest (HttpClient.java:78)\n" ++
    "at PaymentGateway.charge (PaymentGateway.java:45)\n" ++
    "at PaymentService.processPayment (PaymentService.java:123)",
    "payment-service", "/api/payments/charge"⟩]

/-- The structured payload built by `log_reported_error_event_format`.
Note the source joins the prefix to `message` with a NEWLINE
(`f"{self.prefix}\n{message}"`, the message being stack-like text). -/
def reported_error_payload (pref : Option String) (r : RandSrc) : JVal :=
  let scenario := random_choice error_scenarios r.repScenario
  let message := if truthy pref then pyFStr pref ++ "\n" ++ scenario.message
                 else scenario.message
  .obj [
    ("eventTime", .str (r.nowIso ++ "Z")),
    ("serviceContext", .obj [
      ("service", .str scenario.service),
      ("version", .str ("v" ++ toString (random_randint 1 3 r.repMajor) ++ "." ++
        toString (random_randint 0 9 r.repMinor) ++ "." ++
        toString (random_randint 0 99 r.repPatch)))]),
    ("message", .str message),
    ("context", .obj [
      ("httpRequest", .obj [
        ("method", .str (random_choice ["GET", "POST", "PUT"] r.repMethod)),
        ("url", .str ("https://api.example.com" ++ scenario.http_path)),
        ("userAgent", .str "Mozilla/5.0 (X11; Linux x86_64) AppleWebKit/537.36"),
        ("referrer", .str "https://app.example.com"),
        ("responseStatusCode", .num 500),
        ("remoteIp", .str ("192.168." ++ toString (random_randint 1 255 r.repIp1) ++
          "." ++ toString (random_randint 1 255 r.repIp2)))]),
      ("user", .str ("user_" ++ toString (random_randint 10000 99999 r.repUser))),
      ("reportLocation", .obj [
        ("filePath", .str (scenario.service ++ "/Main.java")),
        ("lineNumber", .num (random_randint 100 500 r.repLine)),
        ("functionName", .str "handleRequest")])])]

/-- `log_reported_error_event_format`: one `log_struct(reported_error, severity='ERROR')`. -/
def log_reported_error_event_format (pref : Option String) (r : RandSrc) : List Send :=
  [⟨.json (reported_error_payload pref r), "ERROR"⟩]

/-- A Python class object, carrying its own name and the name of its
metaclass.  For an ordinary class such as `Exception`, CPython's
`type(cls)` is the metaclass `type`. -/
structure PyClassObj where
  name : String
  metaclassName : String

/-- The built-in `Exception` class. -/
def ExceptionClass : PyClassObj := ⟨"Exception", "type"⟩

/-- Model of `type(cls).__name__` for a class object: the metaclass's name. -/
def type_name (c : PyClassObj) : String := c.metaclassName

/-- The structured payload built by `log_custom_json_with_embedded_stack_trace`. -/
def custom_json_payload (pref : Option String) (r : RandSrc) : JVal :=
  let error_msg0 := (synthPair r.fault).1
  let stack_trace0 := (synthPair r.fault).2
  let error_msg := if truthy pref then pyFStr pref ++ " " ++ error_msg0 else error_msg0
  let stack_trace := if truthy pref then pyFStr pref ++ "\n" ++ stack_trace0 else stack_trace0
  .obj [
    ("timestamp", .str r.nowIso),
    ("application", .obj [
      ("name", .str "error-reporting-demo"),
      ("environment", .str (random_choice ["production", "staging", "development"] r.custEnv)),
      ("version", .str "2.1.0")]),
    ("error_details", .obj [
      ("error_type", .str (type_name ExceptionClass)),
      ("error_message", .str error_msg),
      ("full_stack_trace", .str stack_trace),
      ("additional_context", .obj [
        ("request_id", .str ("req_" ++ toString (random_randint 100000 999999 r.custReq))),
        ("session_id", .str ("sess_" ++ toString (random_randint 100000 999999 r.custSess))),
        ("feature_flags", .obj [
          ("new_ui", .bool (random_choice [true, false] r.custFlagNewUi)),
          ("beta_features", .bool (random_choice [true, false] r.custFlagBeta))])])]),
    ("metrics", .obj [
      ("response_time_ms", .num (random_randint 100 5000 r.custRt)),
      ("memory_usage_mb", .num (random_randint 50 500 r.custMem))])]

/-- `log_custom_json_with_embedded_stack_trace`: one `log_struct(..., severity='ERROR')`. -/
def log_custom_json_with_embedded_stack_trace (pref : Option String) (r : RandSrc) : List Send :=
  [⟨.json (custom_json_payload pref r), "ERROR"⟩]

/-! ### Dispatch and batch -/

/-- The five encoder methods, as named by the `--type` choices. -/
inductive Method where
  | text
  | json
  | message
  | reported
  | custom
deriving Inhabited, DecidableEq

/-- A dispatch mode: one fixed encoder, or `all` (uniform random per call). -/
inductive Mode where
  | specific (m : Method)
  | all
deriving DecidableEq

/-- Which method a dispatch call runs: fixed by the mode, or drawn by
`random.choice(error_methods)` when the mode is `all`. -/
def methodFor : Mode → Nat → Method
  | .specific m, _ => m
  | .all, seed =>
    random_choice [Method.text, Method.json, Method.message, Method.reported, Method.custom] seed

/-- Run one encoder method: the transport emissions it performs. -/
def runMethod : Method → Option String → RandSrc → List Send
  | .text, pref, r => log_stack_trace_as_text_payload pref r
  | .json, pref, r => log_stack_trace_as_json_payload pref r
  | .message, pref, r => log_text_message_error pref r
  | .reported, pref, r => log_reported_error_event_format pref r
  | .custom, pref, r => log_custom_json_with_embedded_stack_trace pref r

/-- The per-iteration environment: the random draws consumed by the call
and the transport outcome (`none` = the send succeeds, `some e` = the
logging client raises with message `e`). -/
structure IterEnv where
  r : RandSrc
  sendOutcome : Option String

/-- One dispatch: select the method, build its record, attempt the send.
Encoders are total, so the only failure is a transport failure. -/
def dispatch (mode : Mode) (pref : Option String) (e : IterEnv) : Except String (List Send) :=
  let sends := runMethod (methodFor mode e.r.methodPick) pref e.r
  match e.sendOutcome with
  | none => .ok sends
  | some err => .error err

/-- The observable tally of a batch run: the iteration count announced up
front, the number of success markers printed, and the failure lines
`(index, reason)` in order (the source prints 1-based indices `i+1`). -/
structure BatchResult where
  attempted : Nat
  succeeded : Nat
  failures : List (Nat × String)
deriving DecidableEq

/-- One iteration of the batch loop: `try: error_method() ... except`. -/
def batchStep (mode : Mode) (pref : Option String) (env : Nat → IterEnv)
    (acc : BatchResult) (i : Nat) : BatchResult :=
  match dispatch mode pref (env i) with
  | .ok _ => { acc with succeeded := acc.succeeded + 1 }
  | .error e => { acc with failures := acc.failures ++ [(i + 1, e)] }

/-- `generate_batch_errors` (for mode `all`; the identical fixed-type loop
in `main` is the `specific` case): run `count` iterations, isolate each
failure, and accumulate the printed tally. -/
def generate_batch_errors (count : Nat) (mode : Mode) (pref : Option String)
    (env : Nat → IterEnv) : BatchResult :=
  (List.range count).foldl (batchStep mode pref env) ⟨count, 0, []⟩

/-! ### Project-id resolution (`ErrorGenerator.__init__`) and `main` -/

/-- Python `x or y` on optional strings: the first truthy operand, else `y`. -/
def pyOr (a b : Option String) : Option String :=
  if truthy a then a else b

/-- The ValueError message raised when no project id is resolvable,
with its three remediation instructions. -/
def project_id_error : String :=
  "Project ID not found. Please provide it using one of these methods:\n" ++
  "1. Pass --project-id flag: python generate_error_logs.py --project-id YOUR_PROJECT_ID\n" ++
  "2. Set environment variable: export GOOGLE_CLOUD_PROJECT=YOUR_PROJECT_ID\n" ++
  "3. Set gcloud default project: gcloud config set project YOUR_PROJECT_ID"

/-- The project-id resolution of `ErrorGenerator.__init__`: explicit
parameter, else `GOOGLE_CLOUD_PROJECT or GCP_PROJECT`, else the trimmed
stdout of `gcloud config get-value project` when that subprocess ran
(returncode 0, non-empty output; a raised subprocess error is swallowed by
the bare `except: pass`), else `ValueError(project_id_error)`. -/
def resolve_project_id (param envGoogleCloudProject envGcpProject : Option String)
    (gcloud : Option (Int × String)) : Except String String :=
  let pid1 := param
  let pid2 := if !truthy pid1 then pyOr envGoogleCloudProject envGcpProject else pid1
  let pid3 :=
    if !truthy pid2 then
      match gcloud with
      | some (returncode, stdout) =>
        if returncode = 0 && stdout.trim ≠ "" then some stdout.trim else pid2
      | none => pid2
    else pid2
  if truthy pid3 then .ok (pid3.getD "") else .error project_id_error

/-- The `main` control flow around the batch: construct the generator
(resolving the project id) and run the batch; a ValueError from
construction yields exit code 1 and no batch is run. -/
def main_run (param envGoogleCloudProject envGcpProject : Option String)
    (gcloud : Option (Int × String)) (count : Nat) (mode : Mode)
    (pref : Option String) (env : Nat → IterEnv) : Int × Option BatchResult :=
  match resolve_project_id param envGoogleCloudProject envGcpProject gcloud with
  | .error _ => (1, none)
  | .ok _ => (0, some (generate_batch_errors count mode pref env))

/-! ### Line structure of multi-line messages -/

/-- Split a character list at newline characters (the line structure of a
Python multi-line string). -/
def splitLinesChars : List Char → List (List Char)
  | [] => [[]]
  | c :: rest =>
    if c = '\n' then [] :: splitLinesChars rest
    else
      match splitLinesChars rest with
      | [] => [[c]]
      | l :: ls => (c :: l) :: ls

theorem splitLinesChars_ne_nil (l : List Char) : splitLinesChars l ≠ [] := by
  induction l with
  | nil => simp [splitLinesChars]
  | cons c rest ih =>
    simp only [splitLinesChars]
    split
    · simp
    · split
      · simp
      · simp

theorem splitLinesChars_append (xs ys : List Char) :
    splitLinesChars (xs ++ '\n' :: ys) = splitLinesChars xs ++ splitLinesChars ys := by
  induction xs with
  | nil => simp [splitLinesChars]
  | cons c rest ih =>
    simp only [List.cons_append, splitLinesChars]
    by_cases hc : c = '\n'
    · simp [hc, ih]
    · rw [if_neg hc, if_neg hc]
      have ih2 : splitLinesChars (rest.append ('\n' :: ys)) =
          splitLinesChars rest ++ splitLinesChars ys := ih
      rw [ih2]
      cases h : splitLinesChars rest with
      | nil => exact absurd h (splitLinesChars_ne_nil rest)
      | cons l ls => simp

/-- Whether a line matches the "at <frame>" pattern (begins with `at `). -/
def atFrameLine (l : List Char) : Bool :=
  List.isPrefixOf "at ".data l

/-- The number of lines of a string matching the "at <frame>" pattern. -/
def atFrameCount (s : String) : Nat :=
  ((splitLinesChars s.data).filter atFrameLine).length

theorem atFrameCount_newline_join (p m : String) :
    atFrameCount (p ++ "\n" ++ m) = atFrameCount p + atFrameCount m := by
  unfold atFrameCount
  have hdata : (p ++ "\n" ++ m).data = p.data ++ '\n' :: m.data := by
    simp [String.data_append]
  rw [hdata, splitLinesChars_append, List.filter_append, List.length_append]

/-! ### Batch loop characterization -/

theorem batch_foldl_spec (mode : Mode) (pref : Option String) (env : Nat → IterEnv)
    (l : List Nat) (a s : Nat) (f : List (Nat × String)) :
    l.foldl (batchStep mode pref env) ⟨a, s, f⟩ =
      ⟨a, s + (l.filter (fun i => ((env i).sendOutcome).isNone)).length,
         f ++ l.filterMap (fun i => ((env i).sendOutcome).map (fun e => (i + 1, e)))⟩ := by
  induction l generalizing s f with
  | nil => simp
  | cons i rest ih =>
    rw [List.foldl_cons]
    cases h : (env i).sendOutcome with
    | none =>
      have hstep : batchStep mode pref env ⟨a, s, f⟩ i = ⟨a, s + 1, f⟩ := by
        simp [batchStep, dispatch, h]
      rw [hstep, ih]
      simp [h, BatchResult.mk.injEq]
      omega
    | some e =>
      have hstep : batchStep mode pref env ⟨a, s, f⟩ i = ⟨a, s, f ++ [(i + 1, e)]⟩ := by
        simp [batchStep, dispatch, h]
      rw [hstep, ih]
      simp [h, BatchResult.mk.injEq]

theorem filter_filterMap_split (env : Nat → IterEnv) (l : List Nat) :
    (l.filter (fun i => ((env i).sendOutcome).isNone)).length +
      (l.filterMap (fun i => ((env i).sendOutcome).map (fun e => (i + 1, e)))).length
      = l.length := by
  induction l with
  | nil => simp
  | cons i rest ih => cases h : (env i).sendOutcome <;> simp [h] <;> omega

/-- C2: for every count and mode, the batch runner yields the observable
tally (attempted, succeeded, failure lines); with count 0 the loop body
never runs and the tally is empty with attempted 0 and all-succeeded
status (succeeded = attempted). -/
theorem batch_returns_tally (count : Nat) (mode : Mode) (pref : Option String)
    (env : Nat → IterEnv) :
    (generate_batch_errors count mode pref env).attempted = count ∧
    generate_batch_errors 0 mode pref env = ⟨0, 0, []⟩ ∧
    (generate_batch_errors 0 mode pref env).succeeded
      = (generate_batch_errors 0 mode pref env).attempted := by
  refine ⟨?_, rfl, rfl⟩
  rw [generate_batch_errors, batch_foldl_spec]

/-- C3: every one of the five induced faults raised inside
`generate_python_exception` is caught locally, so the function always
returns a (message, stack trace) pair — it never falls through to `None`
and never lets the fault escape. -/
theorem synthesize_never_raises (seed : Nat) :
    (generate_python_exception seed).isSome = true := by
  have h5 : seed % 5 = 0 ∨ seed % 5 = 1 ∨ seed % 5 = 2 ∨ seed % 5 = 3 ∨ seed % 5 = 4 := by
    omega
  rcases h5 with h | h | h | h | h <;>
    (simp [generate_python_exception, random_choice, h, pyDiv, pyListGet, pyDictGet,
      pyInt, pyAdd]
     try decide)

/-- C4: every iteration of the batch loop catches its own dispatch
failure and records it as the 1-based (index, reason) line; no failure
aborts the loop, attempted always equals count, and the success and
failure counts always sum to count. -/
theorem batch_isolates_failures (count : Nat) (mode : Mode) (pref : Option String)
    (env : Nat → IterEnv) :
    (generate_batch_errors count mode pref env).attempted = count ∧
    (generate_batch_errors count mode pref env).succeeded
      + (generate_batch_errors count mode pref env).failures.length = count ∧
    (generate_batch_errors count mode pref env).failures
      = (List.range count).filterMap
          (fun i => ((env i).sendOutcome).map (fun e => (i + 1, e))) := by
  rw [generate_batch_errors, batch_foldl_spec]
  refine ⟨rfl, ?_, by simp⟩
  have := filter_filterMap_split env (List.range count)
  simpa using this

/-- C10: a dispatch whose transport call succeeds performs exactly one
send, and that send carries severity ERROR, whichever encoder the mode
selects. -/
theorem dispatch_sends_exactly_once (mode : Mode) (pref : Option String) (e : IterEnv)
    (h : e.sendOutcome = none) :
    ∃ sends, dispatch mode pref e = .ok sends ∧ sends.length = 1 ∧
      ∀ s ∈ sends, s.severity = "ERROR" := by
  refine ⟨runMethod (methodFor mode e.r.methodPick) pref e.r, by simp [dispatch, h], ?_, ?_⟩
  · cases methodFor mode e.r.methodPick <;> rfl
  · cases methodFor mode e.r.methodPick <;>
      simp [runMethod, log_stack_trace_as_text_payload, log_stack_trace_as_json_payload,
        log_text_message_error, log_reported_error_event_format,
        log_custom_json_with_embedded_stack_trace]

theorem dispatch_sends_exactly_once_witness :
    (IterEnv.mk r0 none).sendOutcome = none ∧
    ∃ sends, dispatch Mode.all none ⟨r0, none⟩ = .ok sends ∧ sends.length = 1 ∧
      ∀ s ∈ sends, s.severity = "ERROR" :=
  ⟨rfl, dispatch_sends_exactly_once Mode.all none ⟨r0, none⟩ rfl⟩

/-- C5: the NestedCustomEncoder's `error_details.error_type` is the
constant "type" — the name of `type(Exception)`, i.e. of Python's
metaclass — whatever fault category and randomness the call consumed. -/
theorem custom_error_type_is_metaclass_name (pref : Option String) (r : RandSrc) :
    (custom_json_payload pref r).getPath ["error_details", "error_type"]
        = some (.str (type_name ExceptionClass)) ∧
    type_name ExceptionClass = "type" :=
  ⟨rfl, rfl⟩

/-- C8: every TypedMarkerEncoder record carries the fixed ReportedErrorEvent
@type marker and contains no stack-trace field at any depth, whatever the
input and the prefix. -/
theorem typed_marker_no_trace_field (pref : Option String) (r : RandSrc) :
    (text_message_payload pref r).getKey "@type"
        = some (.str "type.googleapis.com/google.devtools.clouderrorreporting.v1beta1.ReportedErrorEvent") ∧
    (text_message_payload pref r).hasKeyDeep "stack_trace" = false ∧
    (text_message_payload pref r).hasKeyDeep "full_stack_trace" = false := by
  refine ⟨rfl, ?_, ?_⟩ <;> simp [text_message_payload, JVal.hasKeyDeep]

/-- C6: every randomized numeric field stays within its documented bounds:
the TypedMarkerEncoder status code is drawn from the seven listed codes,
the ReportedEventEncoder status code is fixed at 500, response_time_ms
lies in [100, 5000], memory_usage_mb in [50, 500], and the
ReportedEventEncoder version string is built from components with
major in [1, 3], minor in [0, 9], patch in [0, 99]. -/
theorem randomized_fields_in_bounds (pref : Option String) (r : RandSrc) :
    (∃ c : Int, (text_message_payload pref r).getPath
        ["context", "httpRequest", "responseStatusCode"] = some (.num c) ∧
      c ∈ ([400, 401, 403, 404, 500, 502, 503] : List Int)) ∧
    (reported_error_payload pref r).getPath
        ["context", "httpRequest", "responseStatusCode"] = some (.num 500) ∧
    (∃ t : Int, (custom_json_payload pref r).getPath ["metrics", "response_time_ms"]
        = some (.num t) ∧ 100 ≤ t ∧ t ≤ 5000) ∧
    (∃ m : Int, (custom_json_payload pref r).getPath ["metrics", "memory_usage_mb"]
        = some (.num m) ∧ 50 ≤ m ∧ m ≤ 500) ∧
    (∃ ma mi pa : Int, (reported_error_payload pref r).getPath ["serviceContext", "version"]
        = some (.str ("v" ++ toString ma ++ "." ++ toString mi ++ "." ++ toString pa)) ∧
      1 ≤ ma ∧ ma ≤ 3 ∧ 0 ≤ mi ∧ mi ≤ 9 ∧ 0 ≤ pa ∧ pa ≤ 99) := by
  have hrt := random_randint_bounds 100 5000 r.custRt (by norm_num)
  have hmem := random_randint_bounds 50 500 r.custMem (by norm_num)
  have hma := random_randint_bounds 1 3 r.repMajor (by norm_num)
  have hmi := random_randint_bounds 0 9 r.repMinor (by norm_num)
  have hpa := random_randint_bounds 0 99 r.repPatch (by norm_num)
  refine ⟨⟨random_choice ([400, 401, 403, 404, 500, 502, 503] : List Int) r.msgStatus,
      rfl, random_choice_mem _ _ (by simp)⟩,
    rfl,
    ⟨random_randint 100 5000 r.custRt, rfl, hrt.1, hrt.2⟩,
    ⟨random_randint 50 500 r.custMem, rfl, hmem.1, hmem.2⟩,
    ⟨random_randint 1 3 r.repMajor, random_randint 0 9 r.repMinor,
      random_randint 0 99 r.repPatch, rfl, hma.1, hma.2, hmi.1, hmi.2, hpa.1, hpa.2⟩⟩

/-- C7: every ReportedEventEncoder record has
`context.httpRequest.responseStatusCode = 500`, and its message — for every
scenario, every randomized sub-field, and any prefix — contains at least
three lines matching the "at <frame>" pattern. -/
theorem reported_event_status_and_frames (pref : Option String) (r : RandSrc) :
    (reported_error_payload pref r).getPath
        ["context", "httpRequest", "responseStatusCode"] = some (.num 500) ∧
    ∃ m : String, (reported_error_payload pref r).getPath ["message"] = some (.str m) ∧
      3 ≤ atFrameCount m := by
  refine ⟨rfl, ?_⟩
  refine ⟨_, rfl, ?_⟩
  have hsc : random_choice error_scenarios r.repScenario ∈ error_scenarios :=
    random_choice_mem _ _ (by simp [error_scenarios])
  have hcount : atFrameCount (random_choice error_scenarios r.repScenario).message = 3 := by
    simp only [error_scenarios, List.mem_cons, List.not_mem_nil, or_false] at hsc ⊢
    rcases hsc with h | h | h <;> (rw [h]; decide)
  cases ht : truthy pref with
  | false => simpa [ht] using hcount.ge
  | true =>
    rw [if_pos (by simp [ht]), atFrameCount_newline_join, hcount]
    omega

/-- C9: the project id is resolved in priority order — explicit parameter,
then GOOGLE_CLOUD_PROJECT or GCP_PROJECT, then the gcloud default config —
and when all three are absent, construction fails with the ValueError
carrying the three remediation instructions, and no batch is run. -/
theorem project_id_resolution (param envA envB : Option String)
    (gcloud : Option (Int × String)) :
    (truthy param = true →
      resolve_project_id param envA envB gcloud = .ok (param.getD "")) ∧
    (truthy param = false → truthy envA = true →
      resolve_project_id param envA envB gcloud = .ok (envA.getD "")) ∧
    (truthy param = false → truthy envA = false → truthy envB = true →
      resolve_project_id param envA envB gcloud = .ok (envB.getD "")) ∧
    (∀ out : String, truthy param = false → truthy envA = false → truthy envB = false →
      gcloud = some (0, out) → out.trim ≠ "" →
      resolve_project_id param envA envB gcloud = .ok out.trim) ∧
    (truthy param = false → truthy envA = false → truthy envB = false →
      (match gcloud with
       | none => True
       | some (rc, out) => rc ≠ 0 ∨ out.trim = "") →
      resolve_project_id param envA envB gcloud = .error project_id_error ∧
      ∀ (count : Nat) (mode : Mode) (pref : Option String) (env : Nat → IterEnv),
        main_run param envA envB gcloud count mode pref env = (1, none)) := by
  refine ⟨?_, ?_, ?_, ?_, ?_⟩
  · intro hp
    simp [resolve_project_id, pyOr, hp]
  · intro hp ha
    simp [resolve_project_id, pyOr, hp, ha]
  · intro hp ha hb
    simp [resolve_project_id, pyOr, hp, ha, hb]
  · intro out hp ha hb hg htrim
    have htr : truthy (some out.trim) = true := by
      simp [truthy]
      exact htrim
    simp [resolve_project_id, pyOr, hp, ha, hb, hg, htrim, htr]
  · intro hp ha hb hg
    have herr : resolve_project_id param envA envB gcloud = .error project_id_error := by
      cases gcloud with
      | none => simp [resolve_project_id, pyOr, hp, ha, hb]
      | some rcout =>
        obtain ⟨rc, out⟩ := rcout
        have hcond : ¬(rc = 0 ∧ ¬out.trim = "") := by
          rcases hg with hrc | hout <;> tauto
        simp [resolve_project_id, pyOr, hp, ha, hb, hcond]
    refine ⟨herr, ?_⟩
    intro count mode pref env
    simp [main_run, herr]

theorem project_id_resolution_witness :
    resolve_project_id none none none none = .error project_id_error ∧
    main_run none none none none 5 Mode.all none (fun _ => ⟨r0, none⟩) = (1, none) := by
  have h := (project_id_resolution none none none none).2.2.2.2 rfl rfl rfl trivial
  exact ⟨h.1, h.2 5 Mode.all none (fun _ => ⟨r0, none⟩)⟩

/-- C1 counterexample: with prefix "PFX", the ReportedEventEncoder's message
field is "PFX" joined by a NEWLINE to the original scenario message, which
differs from the single-space join the claim asserts. -/
theorem reported_prefix_space_counterexample :
    (reported_error_payload (some "PFX") r0).getPath ["message"]
        = some (.str ("PFX" ++ "\n" ++ (random_choice error_scenarios r0.repScenario).message)) ∧
    "PFX" ++ "\n" ++ (random_choice error_scenarios r0.repScenario).message
        ≠ "PFX" ++ " " ++ (random_choice error_scenarios r0.repScenario).message := by
  refine ⟨rfl, ?_⟩
  decide

/-- C1 (amended): with a non-empty prefix, each encoder joins the prefix
with a newline to its stack-trace-like field and with a single space to its
short message field — except that the ReportedEventEncoder joins the prefix
to its (stack-like) message with a newline, not a space; with the prefix
unset every such field is the original text unchanged. -/
theorem prefix_join_rule (p : String) (r : RandSrc) (h : p ≠ "") :
    text_payload_string (some p) r = p ++ "\n" ++ text_payload_string none r ∧
    text_payload_string none r = (synthPair r.fault).2 ∧
    (json_payload_record (some p) r).getPath ["message"]
        = some (.str (p ++ " " ++ ("Error occurred: " ++ (synthPair r.fault).1))) ∧
    (json_payload_record none r).getPath ["message"]
        = some (.str ("Error occurred: " ++ (synthPair r.fault).1)) ∧
    (json_payload_record (some p) r).getPath ["stack_trace"]
        = some (.str (p ++ "\n" ++ (synthPair r.fault).2)) ∧
    (json_payload_record none r).getPath ["stack_trace"]
        = some (.str (synthPair r.fault).2) ∧
    (text_message_payload (some p) r).getPath ["message"]
        = some (.str (p ++ " " ++ random_choice error_messages r.msgChoice)) ∧
    (text_message_payload none r).getPath ["message"]
        = some (.str (random_choice error_messages r.msgChoice)) ∧
    (reported_error_payload (some p) r).getPath ["message"]
        = some (.str (p ++ "\n" ++ (random_choice error_scenarios r.repScenario).message)) ∧
    (reported_error_payload none r).getPath ["message"]
        = some (.str (random_choice error_scenarios r.repScenario).message) ∧
    (custom_json_payload (some p) r).getPath ["error_details", "error_message"]
        = some (.str (p ++ " " ++ (synthPair r.fault).1)) ∧
    (custom_json_payload none r).getPath ["error_details", "error_message"]
        = some (.str (synthPair r.fault).1) ∧
    (custom_json_payload (some p) r).getPath ["error_details", "full_stack_trace"]
        = some (.str (p ++ "\n" ++ (synthPair r.fault).2)) ∧
    (custom_json_payload none r).getPath ["error_details", "full_stack_trace"]
        = some (.str (synthPair r.fault).2) := by
  have ht : truthy (some p) = true := by
    simp [truthy]
    exact h
  refine ⟨?_, rfl, ?_, rfl, ?_, rfl, ?_, rfl, ?_, rfl, ?_, rfl, ?_, rfl⟩ <;>
    simp [text_payload_string, json_payload_record, text_message_payload,
      reported_error_payload, custom_json_payload, JVal.getPath, JVal.getKey,
      lookupField, pyFStr, truthy, ht, h]

theorem prefix_join_rule_witness :
    ("PFX" : String) ≠ "" ∧
    text_payload_string (some "PFX") r0 = "PFX" ++ "\n" ++ text_payload_string none r0 :=
  ⟨by decide, (prefix_join_rule "PFX" r0 (by decide)).1⟩
